import Mathlib

/-!
Verification of the machlist resource-resolution core (src/main.rs).

The Rust program resolves an (environment, machine) pair from a TOML
inventory into a concrete ssh/scp invocation.  This file gives a shallow
embedding of the resolution core:

* `ServerDef`, `ResourceDef`, `EnvironmentDef`, `Resource` mirror the
  serde-deserialized structs (HashMaps are modelled as association lists).
* Fallible Rust functions returning `anyhow::Result` are embedded with
  `Except MErr`; places where the Rust code can panic (`expect`) are
  embedded with the three-valued `Outcome`, whose `panic` constructor is
  distinct from the recoverable `err` constructor.
* The ambient process environment (for `env:`-prefixed usernames) and the
  filesystem (for inventory loading) are passed in as explicit functions.
-/

namespace Machlist

/-- Structured rendering of the `anyhow!` error messages produced by the
resolution core.  Each constructor corresponds to one error site in
src/main.rs; constructors carry a name exactly when the Rust format string
interpolates one. -/
inductive MErr where
  | envNotFound                      -- "cannot find specified target environment in servers"
  | envResourcesNotFound             -- "cannot find specified target environment in resources"
  | machineNotFound (name : String)  -- "cannot find {}"
  | resourceNotFound (name : String) -- "cannot find resource {}"
  | envVarMissing (name : String)    -- "Cannot find environment variable {}"
  | destinationMissing               -- "targetted machine doesn't have IP or name"
  | readFileFailed (path : String)   -- context "Failed to parse resource file {}" on read error
  | parseError (msg : String)        -- toml/serde deserialization failure
deriving DecidableEq

/-- Outcome of running a fallible piece of Rust code: a normal value, a
recoverable `anyhow::Error` propagated with `?`, or a process-aborting
panic (from `expect`). -/
inductive Outcome (α : Type) where
  | ok (a : α)
  | err (e : MErr)
  | panic (msg : String)
deriving DecidableEq

end Machlist

namespace Machlist

/-- `struct ServerDef { ip, name, jump, proxy }`, all fields optional. -/
structure ServerDef where
  ip : Option String
  name : Option String
  jump : Option String
  proxy : Option Bool
deriving DecidableEq

/-- `struct ResourceDef { server, at, port }`; `at` is a Lean keyword so the
field is spelled `at_`; `port : u16` is modelled as `Nat` (values produced
by deserialization always fit in 16 bits). -/
structure ResourceDef where
  server : String
  at_ : String
  port : Nat
deriving DecidableEq

/-- `struct EnvironmentDef<D>(HashMap<String, D>)`; the map is modelled as
an association list with unique keys. -/
structure EnvironmentDef (D : Type) where
  entries : List (String × D)
deriving DecidableEq

/-- HashMap `.get`: first association-list match. -/
def assoc_get {D : Type} : List (String × D) → String → Option D
  | [], _ => none
  | (k0, v) :: rest, k => if k0 = k then some v else assoc_get rest k

/-- `struct Resource { username, server, resource }` as deserialized. -/
structure Resource where
  username : Option String
  server : List (String × EnvironmentDef ServerDef)
  resource : List (String × EnvironmentDef ResourceDef)
deriving DecidableEq

/-- Raw top-level TOML table of the inventory file, before serde maps it
onto `Resource`: each struct field is present or absent. -/
structure RawInventory where
  username : Option String
  server : Option (List (String × EnvironmentDef ServerDef))
  resource : Option (List (String × EnvironmentDef ResourceDef))
deriving DecidableEq

/-- serde derive semantics for `Resource`: `Option` fields default to
`None` when the key is absent, non-`Option` fields without
`#[serde(default)]` are required, so a missing `server` or `resource`
table is a deserialization error. -/
def deserialize_resource (raw : RawInventory) : Except MErr Resource :=
  match raw.server with
  | none => .error (.parseError "missing field `server`")
  | some server =>
    match raw.resource with
    | none => .error (.parseError "missing field `resource`")
    | some resource => .ok (Resource.mk raw.username server resource)

/-- `machlist_local()`: `<home>/.machlist/resources.toml` (PathBuf pushes
rendered as `/`-joined strings). -/
def machlist_local (home : String) : String :=
  home ++ "/.machlist/resources.toml"

/-- `ssh_dir()`: `<home>/.ssh`. -/
def ssh_dir (home : String) : String :=
  home ++ "/.ssh"

/-- The known-hosts file path built in `ssh_login`:
`ssh_dir` plus pushed component `known_hosts_machlist_<env>`. -/
def known_hosts_file (home : String) (target_env : String) : String :=
  ssh_dir home ++ "/" ++ ("known_hosts_machlist_" ++ target_env)

/-- `user_host`: prepend `user@` exactly when a username is present. -/
def user_host (user : Option String) (host : String) : String :=
  match user with
  | some u => u ++ "@" ++ host
  | none => host

/-- How `main` picks the inventory path: the `-r` value when given,
otherwise the clap default, which is `machlist_local()`.  (The doc comment
of `parse_resources` promises a fallback through `./machlist-resources.toml`
first, but no code implements it.) -/
def resolve_res_file (explicit : Option String) (home : String) : String :=
  explicit.getD (machlist_local home)

/-- `parse_resources`: read the file (read failure is reported with the
"Failed to parse resource file" context), then run the TOML parser and the
serde mapping.  `fs` is the filesystem (path to contents), `toml` the
syntactic TOML parser producing the raw top-level table. -/
def parse_resources (fs : String → Option String)
    (toml : String → Except String RawInventory) (file : String) :
    Except MErr Resource :=
  match fs file with
  | none => .error (.readFileFailed file)
  | some content =>
    match toml content with
    | .error msg => .error (.parseError msg)
    | .ok raw => deserialize_resource raw

/-- `Resource::get_target_env`. -/
def Resource.get_target_env (r : Resource) (target_env : String) :
    Except MErr (EnvironmentDef ServerDef) :=
  match assoc_get r.server target_env with
  | some e => .ok e
  | none => .error .envNotFound

/-- `Resource::get_target_env_resources`. -/
def Resource.get_target_env_resources (r : Resource) (target_env : String) :
    Except MErr (EnvironmentDef ResourceDef) :=
  match assoc_get r.resource target_env with
  | some e => .ok e
  | none => .error .envResourcesNotFound

/-- `u.strip_prefix("env:")`: `some remainder` when `u` starts with the
4 characters `env:`, `none` otherwise (modelled on the character list). -/
def strip_env (u : String) : Option String :=
  match u.data with
  | 'e' :: 'n' :: 'v' :: ':' :: rest => some (String.mk rest)
  | _ => none

/-- `Resource::get_username`; `osEnv` is `std::env::var`.  A directive
starting with `env:` names an environment variable (the remainder after
the prefix); otherwise the directive is returned verbatim. -/
def Resource.get_username (r : Resource) (osEnv : String → Option String) :
    Except MErr (Option String) :=
  match r.username with
  | none => .ok none
  | some u =>
    match strip_env u with
    | some env_name =>
      match osEnv env_name with
      | none => .error (.envVarMissing env_name)
      | some v => .ok (some v)
    | none => .ok (some u)

/-- `EnvironmentDef::<ServerDef>::get_machine`. -/
def EnvironmentDef.get_machine (e : EnvironmentDef ServerDef)
    (machine_name : String) : Except MErr ServerDef :=
  match assoc_get e.entries machine_name with
  | some d => .ok d
  | none => .error (.machineNotFound machine_name)

/-- `EnvironmentDef::<ServerDef>::list_non_proxies`: keep entries whose
`proxy` flag, defaulted to `false`, is not set. -/
def list_non_proxies (e : EnvironmentDef ServerDef) :
    List (String × ServerDef) :=
  e.entries.filter (fun kv => !(kv.2.proxy.getD false))

/-- `EnvironmentDef::<ResourceDef>::get_resource`. -/
def EnvironmentDef.get_resource (e : EnvironmentDef ResourceDef)
    (resource_name : String) : Except MErr ResourceDef :=
  match assoc_get e.entries resource_name with
  | some d => .ok d
  | none => .error (.resourceNotFound resource_name)

/-- `struct Ssh { args, dest }`. -/
structure Ssh where
  args : List String
  dest : String
deriving DecidableEq

/-- The jump lookup in `ssh_login` (lines 152–155): resolve
`machine_def.jump`, if any, in the same environment. -/
def jump_lookup (envdef : EnvironmentDef ServerDef) (md : ServerDef) :
    Except MErr (Option ServerDef) :=
  match md.jump with
  | none => .ok none
  | some jump_machine =>
    match envdef.get_machine jump_machine with
    | .error e => .error e
    | .ok d => .ok (some d)

/-- The jump-option emission in `ssh_login` (lines 157–165): a resolved
jump entry must have an `ip` — `expect("jump proxy to have an ip")`
panics otherwise — and contributes `-J user@ip`. -/
def jump_args (user : Option String) : Option ServerDef → Outcome (List String)
  | none => .ok []
  | some d =>
    match d.ip with
    | none => .panic "jump proxy to have an ip"
    | some ip => .ok ["-J", user_host user ip]

/-- The destination computation in `ssh_login` (lines 167–173): prefer
`ip`, then `name`, else bail with "targetted machine doesn't have IP or
name". -/
def ssh_dest (user : Option String) (md : ServerDef) : Except MErr String :=
  match md.ip with
  | some ip => .ok (user_host user ip)
  | none =>
    match md.name with
    | some name => .ok (user_host user name)
    | none => .error .destinationMissing

/-- `ssh_login`: environment lookup, machine lookup, known-hosts override
first, then optional jump option, then destination.  The three stages run
in source order, so a jump-lookup error or jump-ip panic precedes the
destination check. -/
def ssh_login (home : String) (user : Option String) (resources : Resource)
    (target_env : String) (machine_name : String) : Outcome Ssh :=
  match resources.get_target_env target_env with
  | .error e => .err e
  | .ok envdef =>
    match envdef.get_machine machine_name with
    | .error e => .err e
    | .ok machine_def =>
      match jump_lookup envdef machine_def with
      | .error e => .err e
      | .ok jump =>
        match jump_args user jump with
        | .err e => .err e
        | .panic m => .panic m
        | .ok jargs =>
          match ssh_dest user machine_def with
          | .error e => .err e
          | .ok dest =>
            .ok (Ssh.mk
              (("-oUserKnownHostsFile=" ++ known_hosts_file home target_env) :: jargs)
              dest)

/-- The argument list `shell` hands to the ssh binary (verbosity aside):
the plan's options in order, destination last. -/
def ssh_command_args (s : Ssh) : List String :=
  s.args ++ [s.dest]

/-- Decimal value of a digit run. -/
def digits_value (l : List Char) : Nat :=
  l.foldl (fun acc c => acc * 10 + (c.toNat - 48)) 0

/-- `u16::from_str`: optional `+` sign, then a nonempty run of ASCII
digits whose value fits in 16 bits. -/
def u16_from_str (s : String) : Option Nat :=
  let t := match s.data with
           | '+' :: rest => rest
           | l => l
  if t.isEmpty then none
  else if t.all Char.isDigit then
    (if digits_value t ≤ 65535 then some (digits_value t) else none)
  else none

/-- The `-L` forwarding spec built in `tunnel`:
`format!("{}:{}:{}", local_port, def.at, def.port)`. -/
def forwarding_spec (local_port : Nat) (d : ResourceDef) : String :=
  Nat.repr local_port ++ ":" ++ d.at_ ++ ":" ++ Nat.repr d.port

/-- `tunnel` (lines 269–313), modelled up to the argument list passed to
the ssh binary (verbosity aside).  The caller-supplied local-port string
is parsed with `u16::from_str(..).expect(..)` BEFORE the inventory is
consulted, so an unparsable string panics for every possible loader
outcome `loaded`.  Then: username resolution, environment-resources
lookup, resource lookup, `ssh_login` on the resource's server with the
local port defaulted to the resource's `port`, and finally
`args ++ [-N, -L, forwarding_spec, dest]`. -/
def tunnel (home : String) (osEnv : String → Option String)
    (loaded : Except MErr Resource) (target_env : String)
    (resource_name : String) (local_port : Option String) :
    Outcome (List String) :=
  match (match local_port with
         | none => Outcome.ok none
         | some s =>
           match u16_from_str s with
           | none => Outcome.panic "local port is not valid port"
           | some p => Outcome.ok (some p)) with
  | .err e => .err e
  | .panic m => .panic m
  | .ok parsed_port =>
    match loaded with
    | .error e => .err e
    | .ok resources =>
      match resources.get_username osEnv with
      | .error e => .err e
      | .ok user =>
        match resources.get_target_env_resources target_env with
        | .error e => .err e
        | .ok defs =>
          match defs.get_resource resource_name with
          | .error e => .err e
          | .ok d =>
            let machine_name := d.server
            let local_port := parsed_port.getD d.port
            match ssh_login home user resources target_env machine_name with
            | .err e => .err e
            | .panic m => .panic m
            | .ok ssh_opt =>
              .ok (ssh_opt.args ++
                ["-N", "-L", forwarding_spec local_port d] ++ [ssh_opt.dest])

/-- `true` exactly on the recoverable-error outcome. -/
def Outcome.isErr {α : Type} : Outcome α → Bool
  | .err _ => true
  | _ => false

/-- Sample server entries used by the concrete witnesses below. -/
def web_def : ServerDef := ServerDef.mk (some "10.0.0.5") (some "web.internal") (some "gate") none

def gate_def : ServerDef := ServerDef.mk (some "10.0.0.1") none (some "other") (some true)

def noip_def : ServerDef := ServerDef.mk none none none none

def badjump_def : ServerDef := ServerDef.mk (some "10.0.0.7") none (some "nojumpip") none

def nojumpip_def : ServerDef := ServerDef.mk none (some "gw.name") none (some true)

def db_def : ResourceDef := ResourceDef.mk "web" "127.0.0.1" 5432

/-- Sample inventory used by the concrete witnesses below. -/
def sampleServers : EnvironmentDef ServerDef :=
  EnvironmentDef.mk
    [ ("web", web_def),
      ("gate", gate_def),
      ("noip", noip_def),
      ("badjump", badjump_def),
      ("nojumpip", nojumpip_def) ]

def sampleResources : EnvironmentDef ResourceDef :=
  EnvironmentDef.mk [ ("db", db_def) ]

def sampleInv : Resource :=
  Resource.mk (some "alice") [("alpha", sampleServers)] [("alpha", sampleResources)]

/-- The known-hosts path flattened to a single concatenation. -/
theorem known_hosts_file_eq (home env : String) :
    known_hosts_file home env = home ++ "/.ssh/known_hosts_machlist_" ++ env := by
  have h : ("/.ssh/known_hosts_machlist_" : String) =
      "/.ssh" ++ "/" ++ "known_hosts_machlist_" := by decide
  simp only [known_hosts_file, ssh_dir, h, String.append_assoc]

/-- `strip_env` succeeds with remainder `r` exactly on strings of the form
`"env:" ++ r`. -/
theorem strip_env_iff (u r : String) : strip_env u = some r ↔ u = "env:" ++ r := by
  constructor
  · intro h
    cases u with
    | mk d =>
      unfold strip_env at h
      split at h
      · rename_i rest heq
        injection h with h2
        subst h2
        simp only at heq
        subst heq
        rfl
      · exact Option.noConfusion h
  · intro h
    subst h
    cases r with
    | mk d => rfl

end Machlist

namespace Machlist

/-- Claim C1, counterexample: on a machine whose jump target lacks an
`ip`, `ssh_login` does NOT return a recoverable error result — it panics
(the `expect("jump proxy to have an ip")` at src/main.rs:160), refuting
the claim that plan building fails with a structured, recoverable
`JumpMissingIp` error. -/
theorem c1_counterexample :
    ssh_login "/h" (some "alice") sampleInv "alpha" "badjump" =
      .panic "jump proxy to have an ip" ∧
    Outcome.isErr (ssh_login "/h" (some "alice") sampleInv "alpha" "badjump") = false :=
  ⟨rfl, rfl⟩

/-- Claim C1, amended: whenever the machine's jump field resolves, in the
same environment, to an entry whose `ip` is absent, plan building aborts
the process with the panic message "jump proxy to have an ip" (it never
returns an error result, and never falls back to the jump target's
`name` — the conclusion does not depend on `jd.name`). -/
theorem c1_jump_missing_ip_panics (home : String) (user : Option String)
    (r : Resource) (env mname jm : String)
    (envdef : EnvironmentDef ServerDef) (md jd : ServerDef)
    (henv : r.get_target_env env = .ok envdef)
    (hm : envdef.get_machine mname = .ok md)
    (hj : md.jump = some jm)
    (hjm : envdef.get_machine jm = .ok jd)
    (hip : jd.ip = none) :
    ssh_login home user r env mname = .panic "jump proxy to have an ip" := by
  simp [ssh_login, jump_lookup, jump_args, henv, hm, hj, hjm, hip]

/-- Claim C1, witness for the amended theorem at a concrete inventory. -/
theorem c1_witness :
    ssh_login "/h" none sampleInv "alpha" "badjump" = .panic "jump proxy to have an ip" :=
  c1_jump_missing_ip_panics "/h" none sampleInv "alpha" "badjump" "nojumpip"
    sampleServers badjump_def nojumpip_def rfl rfl rfl rfl rfl

/-- Claim C2: with no explicit `-r` path, the program reads exactly
`machlist_local home = <home>/.machlist/resources.toml` (the clap default)
and, when that file is missing, fails with the read error for that path —
for EVERY filesystem `fs`, including ones where `machlist-resources.toml`
exists in the current directory.  So the fallback chain promised by the
doc comment of `parse_resources` (try `./machlist-resources.toml` first)
is not implemented: the code contradicts its own documentation. -/
theorem c2_no_cwd_fallback (home : String) (fs : String → Option String)
    (toml : String → Except String RawInventory)
    (h : fs (machlist_local home) = none) :
    resolve_res_file none home = machlist_local home ∧
    parse_resources fs toml (resolve_res_file none home) =
      .error (.readFileFailed (machlist_local home)) := by
  refine ⟨rfl, ?_⟩
  simp [parse_resources, resolve_res_file, h]

/-- Claim C2, witness: a filesystem that HAS `machlist-resources.toml` in
the current directory but no `<home>/.machlist/resources.toml`; loading
still fails on the latter path. -/
theorem c2_witness :
    parse_resources
      (fun p => if p = "machlist-resources.toml" then some "username = \x22bob\x22" else none)
      (fun _ => .error "unused") (resolve_res_file none "/home/u") =
      .error (.readFileFailed (machlist_local "/home/u")) :=
  (c2_no_cwd_fallback "/home/u"
    (fun p => if p = "machlist-resources.toml" then some "username = \x22bob\x22" else none)
    (fun _ => .error "unused") rfl).2

/-- Claim C3, counterexample: a TOML text with a `server` section but no
`resource` section at all (the stub `toml` parser returns the raw
top-level table of that text, which has no `resource` key) makes loading
FAIL with a serde missing-field error, refuting the claim that loading
succeeds with an implicit empty resource set. -/
theorem c3_counterexample :
    parse_resources
      (fun _ => some "[server.alpha.web]\nip = \x2210.0.0.5\x22")
      (fun _ => .ok (RawInventory.mk none
        (some [("alpha", EnvironmentDef.mk [("web", web_def)])]) none))
      "inventory.toml" =
      .error (.parseError "missing field `resource`") := rfl

/-- Claim C3, amended: deserialization REQUIRES the `resource` field (it
is a non-`Option` serde field without a default), so an absent resource
section is a load-time parse error; a present-but-empty resource table
loads fine and behaves as an empty resource set, erring only when some
environment's resources are actually requested. -/
theorem c3_missing_resource_field (u : Option String)
    (s : List (String × EnvironmentDef ServerDef)) (env : String) :
    deserialize_resource (RawInventory.mk u (some s) none) =
      .error (.parseError "missing field `resource`") ∧
    deserialize_resource (RawInventory.mk u (some s) (some [])) =
      .ok (Resource.mk u s []) ∧
    (Resource.mk u s []).get_target_env_resources env = .error .envResourcesNotFound := by
  refine ⟨rfl, rfl, ?_⟩
  simp [Resource.get_target_env_resources, assoc_get]

/-- Claim C4: the destination string prefers `ip`, falls back to `name`,
and plan building fails with the destination-missing error when neither
is present; the destination carries a `user@` prefix exactly when a
username was resolved (`user_host`). -/
theorem c4_destination (home : String) (user : Option String) (r : Resource)
    (env mname : String) (envdef : EnvironmentDef ServerDef) (md : ServerDef)
    (jargs : List String)
    (henv : r.get_target_env env = .ok envdef)
    (hm : envdef.get_machine mname = .ok md)
    (hjl : ∃ jopt, jump_lookup envdef md = .ok jopt ∧ jump_args user jopt = .ok jargs) :
    (∀ ip, md.ip = some ip →
      ssh_login home user r env mname =
        .ok (Ssh.mk (("-oUserKnownHostsFile=" ++ known_hosts_file home env) :: jargs)
          (user_host user ip))) ∧
    (∀ n, md.ip = none → md.name = some n →
      ssh_login home user r env mname =
        .ok (Ssh.mk (("-oUserKnownHostsFile=" ++ known_hosts_file home env) :: jargs)
          (user_host user n))) ∧
    (md.ip = none → md.name = none →
      ssh_login home user r env mname = .err .destinationMissing) ∧
    (∀ uu h, user_host (some uu) h = uu ++ "@" ++ h) ∧
    (∀ h, user_host none h = h) := by
  obtain ⟨jopt, h1, h2⟩ := hjl
  refine ⟨?_, ?_, ?_, fun _ _ => rfl, fun _ => rfl⟩
  · intro ip hip
    simp [ssh_login, ssh_dest, henv, hm, h1, h2, hip]
  · intro n hip hn
    simp [ssh_login, ssh_dest, henv, hm, h1, h2, hip, hn]
  · intro hip hn
    simp [ssh_login, ssh_dest, henv, hm, h1, h2, hip, hn]

/-- Claim C4, witness: `ip` preferred over `name` on a concrete entry
having both, and destination-missing on an entry having neither. -/
theorem c4_witness :
    ssh_login "/h" (some "alice") sampleInv "alpha" "web" =
      .ok (Ssh.mk (("-oUserKnownHostsFile=" ++ known_hosts_file "/h" "alpha") ::
        ["-J", "alice@10.0.0.1"]) (user_host (some "alice") "10.0.0.5")) ∧
    ssh_login "/h" none sampleInv "alpha" "noip" = .err .destinationMissing :=
  ⟨(c4_destination "/h" (some "alice") sampleInv "alpha" "web" sampleServers web_def
      ["-J", "alice@10.0.0.1"] rfl rfl ⟨some gate_def, rfl, rfl⟩).1 "10.0.0.5" rfl,
   (c4_destination "/h" none sampleInv "alpha" "noip" sampleServers noip_def
      [] rfl rfl ⟨none, rfl, rfl⟩).2.2.1 rfl rfl⟩

/-- Claim C5: username resolution — absent directive resolves to no
username; an `env:`-prefixed directive reads the named process
environment variable and fails with the env-var-missing error when it is
unset; any other directive is returned verbatim for every process
environment. -/
theorem c5_username_resolution (osEnv : String → Option String)
    (srv : List (String × EnvironmentDef ServerDef))
    (res : List (String × EnvironmentDef ResourceDef)) :
    (Resource.mk none srv res).get_username osEnv = .ok none ∧
    (∀ name, osEnv name = none →
      (Resource.mk (some ("env:" ++ name)) srv res).get_username osEnv =
        .error (.envVarMissing name)) ∧
    (∀ name v, osEnv name = some v →
      (Resource.mk (some ("env:" ++ name)) srv res).get_username osEnv = .ok (some v)) ∧
    (∀ u, strip_env u = none →
      (Resource.mk (some u) srv res).get_username osEnv = .ok (some u)) := by
  refine ⟨rfl, ?_, ?_, ?_⟩
  · intro name h
    have hs : strip_env ("env:" ++ name) = some name := (strip_env_iff _ _).mpr rfl
    simp [Resource.get_username, hs, h]
  · intro name v h
    have hs : strip_env ("env:" ++ name) = some name := (strip_env_iff _ _).mpr rfl
    simp [Resource.get_username, hs, h]
  · intro u h
    simp [Resource.get_username, h]

/-- Claim C5, witness at concrete directives and environments. -/
theorem c5_witness :
    (Resource.mk (some ("env:" ++ "FOO")) [] []).get_username (fun _ => none) =
      .error (.envVarMissing "FOO") ∧
    (Resource.mk (some ("env:" ++ "FOO")) [] []).get_username (fun _ => some "bob") =
      .ok (some "bob") ∧
    (Resource.mk (some "alice") [] []).get_username (fun _ => none) = .ok (some "alice") :=
  ⟨(c5_username_resolution (fun _ => none) [] []).2.1 "FOO" rfl,
   (c5_username_resolution (fun _ => some "bob") [] []).2.2.1 "FOO" "bob" rfl,
   (c5_username_resolution (fun _ => none) [] []).2.2.2 "alice" rfl⟩

/-- Claim C6: when the machine has a `jump` field, the jump name is looked
up in the SAME environment's map — an absent key yields the
machine-not-found error for the jump name; when it resolves to an entry
with an `ip`, the emitted options are exactly known-hosts, `-J`,
`user@jumpIp` — an expression depending only on the jump target's `ip`
(so its own `jump` and its `name` are ignored: one level of
indirection, never the name). -/
theorem c6_jump_resolution (home : String) (user : Option String) (r : Resource)
    (env mname jm : String) (envdef : EnvironmentDef ServerDef) (md : ServerDef)
    (henv : r.get_target_env env = .ok envdef)
    (hm : envdef.get_machine mname = .ok md)
    (hj : md.jump = some jm) :
    (assoc_get envdef.entries jm = none →
      ssh_login home user r env mname = .err (.machineNotFound jm)) ∧
    (∀ jd jip, envdef.get_machine jm = .ok jd → jd.ip = some jip →
      ssh_login home user r env mname =
        (match ssh_dest user md with
         | .ok d => .ok (Ssh.mk
             ["-oUserKnownHostsFile=" ++ known_hosts_file home env, "-J", user_host user jip] d)
         | .error e => .err e)) := by
  constructor
  · intro hnone
    have hget : envdef.get_machine jm = .error (.machineNotFound jm) := by
      simp [EnvironmentDef.get_machine, hnone]
    simp [ssh_login, jump_lookup, henv, hm, hj, hget]
  · intro jd jip hget hip
    cases hd : ssh_dest user md <;>
      simp [ssh_login, jump_lookup, jump_args, henv, hm, hj, hget, hip, hd]

/-- Claim C6, witness: the `web` machine jumps through `gate`; the emitted
jump option uses gate's ip `10.0.0.1`, not its absent name, even though
`gate` itself carries a further `jump` field (which is ignored). -/
theorem c6_witness :
    ssh_login "/h" (some "alice") sampleInv "alpha" "web" =
      .ok (Ssh.mk ["-oUserKnownHostsFile=" ++ known_hosts_file "/h" "alpha", "-J",
        user_host (some "alice") "10.0.0.1"] "alice@10.0.0.5") :=
  (c6_jump_resolution "/h" (some "alice") sampleInv "alpha" "web" "gate"
    sampleServers web_def rfl rfl rfl).2 gate_def "10.0.0.1" rfl rfl

end Machlist

namespace Machlist

/-- Claim C7: the plan's option list is deterministic and fixed — the
known-hosts override (pointing at `<home>/.ssh/known_hosts_machlist_<env>`)
comes first, the jump option (when present, exactly the two elements `-J`
and the jump string) follows, and the destination is the last argument of
the command line `shell` assembles. -/
theorem c7_arg_order (home : String) (user : Option String) (r : Resource)
    (env mname : String) (envdef : EnvironmentDef ServerDef) (md : ServerDef)
    (jopt : Option ServerDef) (jargs : List String) (dest : String)
    (henv : r.get_target_env env = .ok envdef)
    (hm : envdef.get_machine mname = .ok md)
    (hjl : jump_lookup envdef md = .ok jopt)
    (hja : jump_args user jopt = .ok jargs)
    (hd : ssh_dest user md = .ok dest) :
    ssh_login home user r env mname =
      .ok (Ssh.mk (("-oUserKnownHostsFile=" ++ known_hosts_file home env) :: jargs) dest) ∧
    ssh_command_args
        (Ssh.mk (("-oUserKnownHostsFile=" ++ known_hosts_file home env) :: jargs) dest) =
      ("-oUserKnownHostsFile=" ++ (home ++ "/.ssh/known_hosts_machlist_" ++ env)) ::
        (jargs ++ [dest]) ∧
    (jargs = [] ∨ ∃ j, jargs = ["-J", j]) := by
  refine ⟨?_, ?_, ?_⟩
  · simp [ssh_login, henv, hm, hjl, hja, hd]
  · simp [ssh_command_args, known_hosts_file_eq]
  · cases jopt with
    | none =>
      left
      injection hja with h
      exact h.symm
    | some jd =>
      cases hip : jd.ip with
      | none => simp [jump_args, hip] at hja
      | some ip =>
        right
        refine ⟨user_host user ip, ?_⟩
        simp [jump_args, hip] at hja
        exact hja.symm

/-- Claim C7, witness at the concrete `web` machine (jump present). -/
theorem c7_witness :
    ssh_login "/h" (some "alice") sampleInv "alpha" "web" =
      .ok (Ssh.mk (("-oUserKnownHostsFile=" ++ known_hosts_file "/h" "alpha") ::
        ["-J", "alice@10.0.0.1"]) "alice@10.0.0.5") ∧
    ssh_command_args (Ssh.mk (("-oUserKnownHostsFile=" ++ known_hosts_file "/h" "alpha") ::
        ["-J", "alice@10.0.0.1"]) "alice@10.0.0.5") =
      ("-oUserKnownHostsFile=" ++ ("/h" ++ "/.ssh/known_hosts_machlist_" ++ "alpha")) ::
        (["-J", "alice@10.0.0.1"] ++ ["alice@10.0.0.5"]) :=
  ⟨(c7_arg_order "/h" (some "alice") sampleInv "alpha" "web" sampleServers web_def
      (some gate_def) ["-J", "alice@10.0.0.1"] "alice@10.0.0.5" rfl rfl rfl rfl rfl).1,
   (c7_arg_order "/h" (some "alice") sampleInv "alpha" "web" sampleServers web_def
      (some gate_def) ["-J", "alice@10.0.0.1"] "alice@10.0.0.5" rfl rfl rfl rfl rfl).2.1⟩

/-- Claim C8: in `tunnel`, an absent caller-supplied local port defaults
to the resource's declared `port`, and the `-L` argument is exactly
`localPort:remoteAt:remotePort` (`forwarding_spec`). -/
theorem c8_tunnel_spec (home : String) (osEnv : String → Option String) (r : Resource)
    (env rname : String) (user : Option String) (defs : EnvironmentDef ResourceDef)
    (d : ResourceDef) (s : Ssh)
    (hu : r.get_username osEnv = .ok user)
    (hr : r.get_target_env_resources env = .ok defs)
    (hd : defs.get_resource rname = .ok d)
    (hs : ssh_login home user r env d.server = .ok s) :
    tunnel home osEnv (.ok r) env rname none =
      .ok (s.args ++ ["-N", "-L", forwarding_spec d.port d] ++ [s.dest]) ∧
    (∀ ps p, u16_from_str ps = some p →
      tunnel home osEnv (.ok r) env rname (some ps) =
        .ok (s.args ++ ["-N", "-L", forwarding_spec p d] ++ [s.dest])) ∧
    forwarding_spec d.port d =
      Nat.repr d.port ++ ":" ++ d.at_ ++ ":" ++ Nat.repr d.port := by
  refine ⟨?_, ?_, rfl⟩
  · simp [tunnel, hu, hr, hd, hs]
  · intro ps p hp
    simp [tunnel, hu, hr, hd, hs, hp]

/-- Claim C8, witness: the spec's own example — resource
`{server: db→web, at: 127.0.0.1, port: 5432}` yields the forwarding
string `5432:127.0.0.1:5432` with no override, and `9999:127.0.0.1:5432`
with override `9999`. -/
theorem c8_witness :
    tunnel "/h" (fun _ => none) (.ok sampleInv) "alpha" "db" none =
      .ok (["-oUserKnownHostsFile=" ++ known_hosts_file "/h" "alpha", "-J", "alice@10.0.0.1"] ++
        ["-N", "-L", forwarding_spec 5432 db_def] ++ ["alice@10.0.0.5"]) ∧
    tunnel "/h" (fun _ => none) (.ok sampleInv) "alpha" "db" (some "9999") =
      .ok (["-oUserKnownHostsFile=" ++ known_hosts_file "/h" "alpha", "-J", "alice@10.0.0.1"] ++
        ["-N", "-L", forwarding_spec 9999 db_def] ++ ["alice@10.0.0.5"]) ∧
    forwarding_spec 5432 db_def = "5432:127.0.0.1:5432" ∧
    forwarding_spec 9999 db_def = "9999:127.0.0.1:5432" :=
  ⟨(c8_tunnel_spec "/h" (fun _ => none) sampleInv "alpha" "db" (some "alice")
      sampleResources db_def
      (Ssh.mk ["-oUserKnownHostsFile=" ++ known_hosts_file "/h" "alpha", "-J", "alice@10.0.0.1"]
        "alice@10.0.0.5") rfl rfl rfl rfl).1,
   (c8_tunnel_spec "/h" (fun _ => none) sampleInv "alpha" "db" (some "alice")
      sampleResources db_def
      (Ssh.mk ["-oUserKnownHostsFile=" ++ known_hosts_file "/h" "alpha", "-J", "alice@10.0.0.1"]
        "alice@10.0.0.5") rfl rfl rfl rfl).2.1 "9999" 9999 rfl,
   rfl, rfl⟩

/-- Claim C9: `list_non_proxies` keeps exactly the entries whose `proxy`
flag, defaulted to `false` when unset, is false — and machine lookup is
NOT filtered by the flag: any entry found by `assoc_get`, proxy-marked or
not, is a valid `get_machine` result. -/
theorem c9_proxy_listing (e : EnvironmentDef ServerDef) :
    (∀ k v, (k, v) ∈ list_non_proxies e ↔
      ((k, v) ∈ e.entries ∧ v.proxy.getD false = false)) ∧
    (∀ k v, v.proxy = some true → assoc_get e.entries k = some v →
      e.get_machine k = .ok v) := by
  constructor
  · intro k v
    simp [list_non_proxies, List.mem_filter]
  · intro k v _ h
    simp [EnvironmentDef.get_machine, h]

/-- Claim C9, witness: the proxy-marked `gate` entry is excluded from the
listing but still resolvable by `get_machine`. -/
theorem c9_witness :
    sampleServers.get_machine "gate" = .ok gate_def ∧
    ("gate", gate_def) ∉ list_non_proxies sampleServers :=
  ⟨(c9_proxy_listing sampleServers).2 "gate" gate_def rfl rfl, by decide⟩

/-- Claim C10: when the caller-supplied local-port string does not parse
as a `u16`, `tunnel` panics with "local port is not valid port"
(`expect`, not a recoverable error result) — and it does so for EVERY
loader outcome `loaded`, including a failing one, because the parse
happens before the inventory is consulted. -/
theorem c10_port_panic (home : String) (osEnv : String → Option String)
    (loaded : Except MErr Resource) (env rname s : String)
    (h : u16_from_str s = none) :
    tunnel home osEnv loaded env rname (some s) =
      .panic "local port is not valid port" := by
  simp [tunnel, h]

/-- Claim C10, witness: an unparsable port string panics even though the
inventory loader itself would have failed. -/
theorem c10_witness :
    tunnel "/h" (fun _ => none) (.error .envNotFound) "alpha" "db" (some "notaport") =
      .panic "local port is not valid port" :=
  c10_port_panic "/h" (fun _ => none) (.error .envNotFound) "alpha" "db" "notaport" rfl

end Machlist
